import Mathlib

/-!
Verification of the SSE chat-streaming client of `vargos` (apps/cli).

The embedding follows the source files:
- `src/apps/cli/src/agent/client.rs` (`AgentClient`: `list_agents`, `get_agent`, `chat`)
- `src/apps/cli/src/agent/discovery.rs` (`AgentDiscovery`: `validate_agent`)
- `src/apps/cli/src/agent/stream.rs` (`StreamHandler::stream_chat`)
- `src/apps/cli/src/utils/errors.rs` (`AppError`)

JSON values (`serde_json::Value`) are modelled by the inductive `Json`; the
transport (reqwest eventsource) is modelled by a list of `SseSignal`s, the raw
`data` of a `Message` signal being carried as `Option Json` (`none` when the
raw text is not valid JSON, `some j` when `serde_json::from_str::<Value>`
would succeed with `j`).  HTTP responses are modelled by status code plus
parsed body; the `Display` of an HTTP status is modelled by its numeric code.
-/

/-- Model of `serde_json::Value`. -/
inductive Json where
  | null : Json
  | bool (b : Bool) : Json
  | num (n : Int) : Json
  | str (s : String) : Json
  | arr (elems : List Json) : Json
  | obj (fields : List (String × Json)) : Json
deriving Repr

/-- Model of `serde_json::Value::get(key)`: field lookup, objects only. -/
def Json.get : Json → String → Option Json
  | .obj fields, key => (fields.find? (fun p => p.1 == key)).map (fun p => p.2)
  | _, _ => none

/-- Model of `serde_json::Value::as_str()`: `some` only on JSON strings. -/
def Json.asStr : Json → Option String
  | .str s => some s
  | _ => none

/-- Model of `crate::utils::AppError` (errors.rs); each variant carries its
message rendered to a string. -/
inductive AppError where
  | Config (msg : String) : AppError
  | Network (msg : String) : AppError
  | Agent (msg : String) : AppError
  | Io (msg : String) : AppError
  | Serialization (msg : String) : AppError
deriving Repr

/-- One signal from the eventsource transport (spec section 4.1): `Open`,
`Message(event, data)` with `data` the parse result of the raw frame text as
JSON, or an `Error` carrying the rendered cause. -/
inductive SseSignal where
  | opened : SseSignal
  | message (event : String) (data : Option Json) : SseSignal
  | error (cause : String) : SseSignal
deriving Repr

/-- Outcome of processing one signal in `AgentClient::chat`: keep looping
with an updated accumulator, or stop with a final result. -/
inductive ChatStepOut where
  | next (acc : String) : ChatStepOut
  | stop (r : Except AppError String) : ChatStepOut
deriving Repr

/-- The body of the `while let` loop of `AgentClient::chat`
(client.rs lines 128-160), for one signal with accumulator `acc`:
`Open` and unparseable or untyped frames continue unchanged; `"text"` and
`"text-delta"` frames append `content` as a string, else `delta` as a string,
else nothing; a `"done"` frame breaks out returning `Ok(acc)`; other types
are ignored; a transport error returns the stream error immediately. -/
def chatStep (s : SseSignal) (acc : String) : ChatStepOut :=
  match s with
  | .opened => .next acc
  | .message _ none => .next acc
  | .message _ (some data) =>
    match (data.get "type").bind Json.asStr with
    | none => .next acc
    | some t =>
      if t == "text" || t == "text-delta" then
        match (data.get "content").bind Json.asStr with
        | some content => .next (acc ++ content)
        | none =>
          match (data.get "delta").bind Json.asStr with
          | some delta => .next (acc ++ delta)
          | none => .next acc
      else if t == "done" then .stop (.ok acc)
      else .next acc
  | .error e => .stop (.error (.Agent ("SSE stream error: " ++ e)))

/-- The `while let Some(event) = es.next().await` loop of `AgentClient::chat`
over the whole signal sequence; natural end of stream returns the
accumulator as a success (client.rs line 162). -/
def chatLoop : List SseSignal → String → Except AppError String
  | [], acc => .ok acc
  | s :: rest, acc =>
    match chatStep s acc with
    | .next acc2 => chatLoop rest acc2
    | .stop r => r

/-- Model of `ChatMessageContent` (client.rs). -/
structure ChatMessageContent where
  content_type : String
  text : String
deriving Repr

/-- Model of `ChatMessage` (client.rs). -/
structure ChatMessage where
  role : String
  content : List ChatMessageContent
deriving Repr

/-- Model of `ChatRequest` (client.rs); the free-form JSON settings are `Json`. -/
structure ChatRequest where
  messages : List ChatMessage
  run_id : String
  model_settings : Option Json
  runtime_context : Option Json
  thread_id : Option String
  resource_id : String
deriving Repr

/-- The `ChatRequest` built by `AgentClient::chat` (client.rs lines 101-114). -/
def AgentClient.chatRequest (agent_name : String) (message : String)
    (thread_id : Option String) : ChatRequest :=
  ⟨[⟨"user", [⟨"text", message⟩]⟩], agent_name, none, none, thread_id, agent_name⟩

/-- Model of `AgentClient::chat` (client.rs lines 95-163): builds the request,
then folds the transport's signals into the accumulated response, starting
from the empty string. -/
def AgentClient.chat (agent_name : String) (message : String)
    (thread_id : Option String) (signals : List SseSignal) :
    Except AppError String :=
  let _request := AgentClient.chatRequest agent_name message thread_id
  chatLoop signals ""

/-- Text a `"text"`/`"text-delta"` frame contributes: `content` as a string
when present, else `delta` as a string, else nothing. -/
def frameContribution (data : Json) : String :=
  match (data.get "content").bind Json.asStr with
  | some content => content
  | none =>
    match (data.get "delta").bind Json.asStr with
    | some delta => delta
    | none => ""

/-- Text a signal contributes to the accumulated response when the loop does
not stop on it. -/
def signalContribution : SseSignal → String
  | .message _ (some data) =>
    match (data.get "type").bind Json.asStr with
    | some t => if t == "text" || t == "text-delta" then frameContribution data else ""
    | none => ""
  | _ => ""

/-- Whether a signal is a transport error. -/
def SseSignal.isErr : SseSignal → Bool
  | .error _ => true
  | _ => false

/-- Whether a signal is a parseable frame whose `type` field is the string
`"done"`. -/
def SseSignal.isDone : SseSignal → Bool
  | .message _ (some data) => (data.get "type").bind Json.asStr == some "done"
  | _ => false

/-- Ordered concatenation of a list of strings. -/
def concatAll : List String → String
  | [] => ""
  | s :: rest => s ++ concatAll rest

/-- Model of `StreamEventData` (stream.rs): the strict typed payload, with a
required string `type` field (serde rename of `event_type`) and three
optional string fields. -/
structure StreamEventData where
  event_type : String
  content : Option String
  tool : Option String
  status : Option String
deriving Repr

/-- Model of `StreamEvent` (stream.rs): SSE event name plus typed payload. -/
structure StreamEvent where
  event : String
  data : StreamEventData
deriving Repr

/-- Serde decoding of an `Option<String>` struct field from a JSON object:
missing or `null` gives `none`, a string gives `some`, any other value is a
decode failure (outer `none`). -/
def decodeOptStrField (j : Json) (key : String) : Option (Option String) :=
  match j.get key with
  | none => some none
  | some Json.null => some none
  | some (Json.str s) => some (some s)
  | some _ => none

/-- Serde decoding of `StreamEventData` from a JSON value
(`serde_json::from_str::<StreamEventData>` on the frame's raw text): the
value must be an object whose `type` field is a string; `content`, `tool`
and `status` are optional strings. -/
def StreamEventData.decode (j : Json) : Option StreamEventData :=
  match j with
  | Json.obj _ =>
    match (j.get "type").bind Json.asStr, decodeOptStrField j "content",
        decodeOptStrField j "tool", decodeOptStrField j "status" with
    | some t, some c, some tl, some st => some ⟨t, c, tl, st⟩
    | _, _, _, _ => none
  | _ => none

/-- Model of the `async_stream::stream!` loop of `StreamHandler::stream_chat`
(stream.rs lines 46-73) applied to the whole signal sequence: the list of
items the returned stream yields.  `Open` yields nothing; a parseable,
well-typed frame yields `Ok(StreamEvent)` and continues; a frame whose raw
data does not decode as `StreamEventData` yields a serialization error and
breaks; a transport error yields a stream error and breaks.  The
serialization error's message comes from serde and is modelled abstractly. -/
def streamChatLoop : List SseSignal → List (Except AppError StreamEvent)
  | [] => []
  | SseSignal.opened :: rest => streamChatLoop rest
  | SseSignal.message ev raw :: rest =>
    match raw.bind StreamEventData.decode with
    | some d => Except.ok ⟨ev, d⟩ :: streamChatLoop rest
    | none => [Except.error (.Serialization "invalid stream event data")]
  | SseSignal.error e :: _ => [Except.error (.Agent ("SSE stream error: " ++ e))]

/-- Model of `Agent` (discovery.rs). -/
structure Agent where
  name : String
  description : String
  tools : Option (List String)
deriving Repr

/-- Serde decoding of an `Option<Vec<String>>` struct field: missing or
`null` gives `none`, an array of strings gives `some`, anything else fails. -/
def decodeOptStrListField (j : Json) (key : String) : Option (Option (List String)) :=
  match j.get key with
  | none => some none
  | some Json.null => some none
  | some (Json.arr xs) => (xs.mapM Json.asStr).map some
  | some _ => none

/-- Serde decoding of one `Agent` from a JSON value: an object with required
string `name` and `description` and optional string-array `tools`. -/
def Agent.decode (j : Json) : Option Agent :=
  match j with
  | Json.obj _ =>
    match (j.get "name").bind Json.asStr, (j.get "description").bind Json.asStr,
        decodeOptStrListField j "tools" with
    | some n, some d, some t => some ⟨n, d, t⟩
    | _, _, _ => none
  | _ => none

/-- Serde decoding of `Vec<Agent>` from a JSON value. -/
def decodeAgentList (j : Json) : Option (List Agent) :=
  match j with
  | Json.arr xs => xs.mapM Agent.decode
  | _ => none

/-- An HTTP response as the directory client sees it: status code, and the
body's parse result as JSON (`none` when the body is not valid JSON). -/
structure HttpResponse where
  status : Nat
  body : Option Json
deriving Repr

/-- Model of `reqwest::StatusCode::is_success()`: 2xx. -/
def statusIsSuccess (code : Nat) : Bool := 200 ≤ code && code < 300

/-- Display of an HTTP status, modelled by its numeric code (the canonical
reason phrase appended by the http crate is omitted). -/
def statusDisplay (code : Nat) : String := toString code

/-- The result of `send()`: either a transport failure with its rendered
message, or an `HttpResponse`. -/
def SendResult := Except String HttpResponse

/-- Model of `AgentClient::list_agents` (client.rs lines 46-68) as a function
of the send result: a send failure maps to `AppError::Network`; a non-2xx
status fails with an `Agent` error carrying the status; otherwise the body
is decoded as `Vec<Agent>`, a body decode failure again mapping to
`AppError::Network` (reqwest's `json()` error). -/
def AgentClient.list_agents (send : Except String HttpResponse) :
    Except AppError (List Agent) :=
  match send with
  | .error e => .error (.Network e)
  | .ok r =>
    if !statusIsSuccess r.status then
      .error (.Agent ("Failed to list agents: " ++ statusDisplay r.status))
    else
      match r.body.bind decodeAgentList with
      | some agents => .ok agents
      | none => .error (.Network "error decoding response body")

/-- Model of `AgentClient::get_agent` (client.rs lines 70-93) as a function
of the send result: a send failure maps to `AppError::Network`; a non-2xx
status fails with an `Agent` error naming the agent and the status;
otherwise the body is decoded as one `Agent`, a decode failure mapping to
`AppError::Network`. -/
def AgentClient.get_agent (name : String) (send : Except String HttpResponse) :
    Except AppError Agent :=
  match send with
  | .error e => .error (.Network e)
  | .ok r =>
    if !statusIsSuccess r.status then
      .error (.Agent ("Agent \x27" ++ name ++ "\x27 not found: " ++ statusDisplay r.status))
    else
      match r.body.bind Agent.decode with
      | some a => .ok a
      | none => .error (.Network "error decoding response body")

/-- Model of `AgentDiscovery::get_agent` (discovery.rs lines 27-29): a pure
delegation to `AgentClient::get_agent`. -/
def AgentDiscovery.get_agent (name : String) (send : Except String HttpResponse) :
    Except AppError Agent :=
  AgentClient.get_agent name send

/-- Model of `AgentDiscovery::validate_agent` (discovery.rs lines 31-36):
`Ok(true)` when `get_agent` succeeds, `Ok(false)` on any `get_agent` error. -/
def AgentDiscovery.validate_agent (name : String) (send : Except String HttpResponse) :
    Except AppError Bool :=
  match AgentDiscovery.get_agent name send with
  | .ok _ => .ok true
  | .error _ => .ok false

/-- Whether an `Except` is a success. -/
def exceptOk {ε α : Type} : Except ε α → Bool
  | .ok _ => true
  | .error _ => false

theorem chatStep_next_of_clean (s : SseSignal) (acc : String)
    (he : s.isErr = false) (hd : s.isDone = false) :
    chatStep s acc = .next (acc ++ signalContribution s) := by
  cases s with
  | opened => simp [chatStep, signalContribution]
  | error e => simp [SseSignal.isErr] at he
  | message ev data =>
    cases data with
    | none => simp [chatStep, signalContribution]
    | some j =>
      simp only [SseSignal.isDone] at hd
      simp only [chatStep, signalContribution]
      cases ht : (j.get "type").bind Json.asStr with
      | none => simp
      | some t =>
        rw [ht] at hd
        have hne : t ≠ "done" := by
          intro hcon
          rw [hcon] at hd
          simp at hd
        by_cases htext : (t == "text" || t == "text-delta") = true
        · simp only [htext, if_true, frameContribution]
          cases hc : (j.get "content").bind Json.asStr with
          | some c => simp
          | none =>
            cases hdlt : (j.get "delta").bind Json.asStr with
            | some d => simp
            | none => simp
        · have hdone : (t == "done") = false := beq_eq_false_iff_ne.mpr hne
          simp [htext, hdone]

theorem chatLoop_clean (signals : List SseSignal) (acc : String)
    (h : ∀ s ∈ signals, s.isErr = false ∧ s.isDone = false) :
    chatLoop signals acc = .ok (acc ++ concatAll (signals.map signalContribution)) := by
  induction signals generalizing acc with
  | nil => simp [chatLoop, concatAll]
  | cons s rest ih =>
    have hs := h s (List.mem_cons_self s rest)
    have hrest : ∀ x ∈ rest, x.isErr = false ∧ x.isDone = false :=
      fun x hx => h x (List.mem_cons_of_mem s hx)
    simp only [chatLoop, chatStep_next_of_clean s acc hs.1 hs.2]
    rw [ih (acc ++ signalContribution s) hrest]
    simp [concatAll, String.append_assoc]

theorem chat_clean (a m : String) (t : Option String) (signals : List SseSignal)
    (h : ∀ s ∈ signals, s.isErr = false ∧ s.isDone = false) :
    AgentClient.chat a m t signals
      = .ok (concatAll (signals.map signalContribution)) := by
  show chatLoop signals "" = _
  rw [chatLoop_clean signals "" h, String.empty_append]

theorem contribution_map (ev : String) (frames : List Json)
    (h : ∀ j ∈ frames, (j.get "type").bind Json.asStr = some "text" ∨
         (j.get "type").bind Json.asStr = some "text-delta") :
    (frames.map (fun j => SseSignal.message ev (some j))).map signalContribution
      = frames.map frameContribution := by
  induction frames with
  | nil => rfl
  | cons j rest ih =>
    have hj := h j (List.mem_cons_self j rest)
    have hrest := ih (fun x hx => h x (List.mem_cons_of_mem j hx))
    simp only [List.map_cons, hrest]
    rcases hj with ht | ht <;> simp [signalContribution, ht]

theorem text_frames_clean (ev : String) (frames : List Json)
    (h : ∀ j ∈ frames, (j.get "type").bind Json.asStr = some "text" ∨
         (j.get "type").bind Json.asStr = some "text-delta") :
    ∀ s ∈ frames.map (fun j => SseSignal.message ev (some j)),
      s.isErr = false ∧ s.isDone = false := by
  intro s hs
  rcases List.mem_map.mp hs with ⟨j, hjmem, rfl⟩
  refine ⟨rfl, ?_⟩
  rcases h j hjmem with ht | ht <;> simp [SseSignal.isDone, ht]

/-- C1: a stream of parseable frames all typed `"text"` or `"text-delta"`
accumulates, in arrival order, each frame's `content` string, or its `delta`
string when `content` is absent. -/
theorem chat_text_frames_concat (a m : String) (t : Option String) (ev : String)
    (frames : List Json)
    (h : ∀ j ∈ frames, (j.get "type").bind Json.asStr = some "text" ∨
         (j.get "type").bind Json.asStr = some "text-delta") :
    AgentClient.chat a m t (frames.map (fun j => SseSignal.message ev (some j)))
      = .ok (concatAll (frames.map frameContribution)) := by
  rw [chat_clean a m t _ (text_frames_clean ev frames h), contribution_map ev frames h]

/-- Witness for C1, on the spec's own example frames. -/
theorem chat_text_frames_concat_witness :
    AgentClient.chat "weather" "hi" none
      ([Json.obj [("type", Json.str "text"), ("content", Json.str "Hel")],
        Json.obj [("type", Json.str "text-delta"), ("delta", Json.str "lo")]].map
        (fun j => SseSignal.message "message" (some j)))
      = .ok (concatAll
          ([Json.obj [("type", Json.str "text"), ("content", Json.str "Hel")],
            Json.obj [("type", Json.str "text-delta"), ("delta", Json.str "lo")]].map
            frameContribution)) :=
  chat_text_frames_concat "weather" "hi" none "message" _ (by decide)

theorem chatStep_done (ev : String) (j : Json) (acc : String)
    (hj : (j.get "type").bind Json.asStr = some "done") :
    chatStep (SseSignal.message ev (some j)) acc = .stop (.ok acc) := by
  simp [chatStep, hj]

theorem chatLoop_done_trunc (pre post : List SseSignal) (ev : String) (j : Json)
    (acc : String) (hj : (j.get "type").bind Json.asStr = some "done") :
    chatLoop (pre ++ SseSignal.message ev (some j) :: post) acc
      = chatLoop (pre ++ [SseSignal.message ev (some j)]) acc := by
  induction pre generalizing acc with
  | nil => simp [chatLoop, chatStep_done ev j acc hj]
  | cons s rest ih =>
    simp only [List.cons_append, chatLoop]
    cases hstep : chatStep s acc with
    | next acc2 => exact ih acc2
    | stop r => rfl

/-- C2: a `"done"`-typed frame ends processing; nothing after the first
`"done"` frame affects the returned string. -/
theorem chat_done_truncates (a m : String) (t : Option String) (ev : String)
    (j : Json) (pre post : List SseSignal)
    (hj : (j.get "type").bind Json.asStr = some "done") :
    AgentClient.chat a m t (pre ++ SseSignal.message ev (some j) :: post)
      = AgentClient.chat a m t (pre ++ [SseSignal.message ev (some j)]) :=
  chatLoop_done_trunc pre post ev j "" hj

/-- Witness for C2: a `"text"` frame after `"done"` leaves the result
unchanged. -/
theorem chat_done_truncates_witness :
    AgentClient.chat "a" "m" none
      ([SseSignal.message "message" (some (Json.obj [("type", Json.str "text"), ("content", Json.str "A")]))]
        ++ SseSignal.message "message" (some (Json.obj [("type", Json.str "done")]))
        :: [SseSignal.message "message" (some (Json.obj [("type", Json.str "text"), ("content", Json.str "B")]))])
      = AgentClient.chat "a" "m" none
          ([SseSignal.message "message" (some (Json.obj [("type", Json.str "text"), ("content", Json.str "A")]))]
            ++ [SseSignal.message "message" (some (Json.obj [("type", Json.str "done")]))]) :=
  chat_done_truncates "a" "m" none "message" _ _ _ (by decide)

/-- C3: on a `"text"`/`"text-delta"` frame carrying both a `content` string
and a `delta` string, the `content` string is appended and the `delta`
string is ignored. -/
theorem chat_content_over_delta (ev : String) (j : Json) (rest : List SseSignal)
    (acc c d : String)
    (ht : (j.get "type").bind Json.asStr = some "text" ∨
          (j.get "type").bind Json.asStr = some "text-delta")
    (hc : (j.get "content").bind Json.asStr = some c)
    (hd : (j.get "delta").bind Json.asStr = some d) :
    chatLoop (SseSignal.message ev (some j) :: rest) acc
      = chatLoop rest (acc ++ c) := by
  rcases ht with ht | ht <;> simp [chatLoop, chatStep, ht, hc]

/-- Witness for C3: with `content:"C"` and `delta:"D"` on one frame, the
result is `"C"`. -/
theorem chat_content_over_delta_witness :
    chatLoop [SseSignal.message "message"
        (some (Json.obj [("type", Json.str "text"), ("content", Json.str "C"), ("delta", Json.str "D")]))] ""
      = chatLoop [] ("" ++ "C") :=
  chat_content_over_delta "message" _ [] "" "C" "D" (by decide) (by decide) (by decide)

/-- C4: a stream with no transport error and no `"done"` frame that ends by
natural close returns success with the accumulated text; in particular the
empty stream returns success with the empty string. -/
theorem chat_natural_close_success (a m : String) (t : Option String)
    (signals : List SseSignal)
    (h : ∀ s ∈ signals, s.isErr = false ∧ s.isDone = false) :
    AgentClient.chat a m t signals
      = .ok (concatAll (signals.map signalContribution))
  ∧ AgentClient.chat a m t [] = .ok "" :=
  ⟨chat_clean a m t signals h, rfl⟩

/-- Witness for C4, on a one-frame stream closed without `"done"`. -/
theorem chat_natural_close_success_witness :
    (AgentClient.chat "a" "m" none
        [SseSignal.message "message" (some (Json.obj [("type", Json.str "text-delta"), ("delta", Json.str "hi")]))]
      = .ok (concatAll
          ([SseSignal.message "message" (some (Json.obj [("type", Json.str "text-delta"), ("delta", Json.str "hi")]))].map
            signalContribution)))
  ∧ AgentClient.chat "a" "m" none [] = .ok "" :=
  chat_natural_close_success "a" "m" none _ (by decide)

/-- C5: an unparseable frame is skipped by the loose chat path but makes the
strict typed path yield a serialization error as its final item, ending the
stream with no further events. -/
theorem loose_skips_strict_aborts :
    (∀ (ev : String) (rest : List SseSignal) (acc : String),
       chatLoop (SseSignal.message ev none :: rest) acc = chatLoop rest acc)
  ∧ (∀ (ev : String) (raw : Option Json) (rest : List SseSignal),
       raw.bind StreamEventData.decode = none →
       ∃ msg, streamChatLoop (SseSignal.message ev raw :: rest)
         = [Except.error (AppError.Serialization msg)]) := by
  constructor
  · intro ev rest acc
    simp [chatLoop, chatStep]
  · intro ev raw rest hraw
    exact ⟨"invalid stream event data", by simp [streamChatLoop, hraw]⟩

/-- Witness for C5: one unparseable frame followed by a `"text"` frame; the
loose path still sees the later frame, the strict path stops at the bad
frame. -/
theorem loose_skips_strict_aborts_witness :
    (chatLoop (SseSignal.message "message" none
        :: [SseSignal.message "message" (some (Json.obj [("type", Json.str "text"), ("content", Json.str "A")]))]) ""
      = chatLoop [SseSignal.message "message" (some (Json.obj [("type", Json.str "text"), ("content", Json.str "A")]))] "")
  ∧ ∃ msg, streamChatLoop (SseSignal.message "message" none
        :: [SseSignal.message "message" (some (Json.obj [("type", Json.str "text"), ("content", Json.str "A")]))])
      = [Except.error (AppError.Serialization msg)] :=
  ⟨loose_skips_strict_aborts.1 "message" _ "",
   loose_skips_strict_aborts.2 "message" none _ rfl⟩

theorem chatLoop_error_abort (pre post : List SseSignal) (e : String) (acc : String)
    (h : ∀ s ∈ pre, s.isErr = false ∧ s.isDone = false) :
    chatLoop (pre ++ SseSignal.error e :: post) acc
      = .error (.Agent ("SSE stream error: " ++ e)) := by
  induction pre generalizing acc with
  | nil => simp [chatLoop, chatStep]
  | cons s rest ih =>
    have hs := h s (List.mem_cons_self s rest)
    simp only [List.cons_append, chatLoop, chatStep_next_of_clean s acc hs.1 hs.2]
    exact ih _ (fun x hx => h x (List.mem_cons_of_mem s hx))

/-- C6: a transport error before any `"done"` frame makes the chat call fail
with a stream error carrying the cause; the text accumulated before the
error is not returned. -/
theorem chat_error_aborts (a m : String) (t : Option String)
    (pre post : List SseSignal) (e : String)
    (h : ∀ s ∈ pre, s.isErr = false ∧ s.isDone = false) :
    AgentClient.chat a m t (pre ++ SseSignal.error e :: post)
      = .error (.Agent ("SSE stream error: " ++ e)) :=
  chatLoop_error_abort pre post e "" h

/-- Witness for C6: text accumulated before the error is discarded. -/
theorem chat_error_aborts_witness :
    AgentClient.chat "a" "m" none
      ([SseSignal.message "message" (some (Json.obj [("type", Json.str "text"), ("content", Json.str "partial")]))]
        ++ SseSignal.error "boom" :: [])
      = .error (.Agent ("SSE stream error: " ++ "boom")) :=
  chat_error_aborts "a" "m" none _ [] "boom" (by decide)

/-- C7: `validate_agent` returns `Ok` of exactly whether `get_agent`
succeeds; `get_agent` reports a non-success status as a distinct `Agent`
(directory) error and a send failure as a `Network` error, and both collapse
to `Ok(false)` in `validate_agent` instead of propagating. -/
theorem validate_agent_iff_get (name : String) (send : Except String HttpResponse) :
    AgentDiscovery.validate_agent name send
      = .ok (exceptOk (AgentDiscovery.get_agent name send))
  ∧ (∀ e, AgentClient.get_agent name (.error e) = .error (.Network e))
  ∧ (∀ r : HttpResponse, statusIsSuccess r.status = false →
       AgentClient.get_agent name (.ok r)
         = .error (.Agent ("Agent \x27" ++ name ++ "\x27 not found: "
             ++ statusDisplay r.status))) := by
  refine ⟨?_, fun e => rfl, fun r hr => ?_⟩
  · cases hget : AgentDiscovery.get_agent name send <;>
      simp [AgentDiscovery.validate_agent, hget, exceptOk]
  · simp [AgentClient.get_agent, hr]

/-- Witness for C7: a 404 response gives a directory error from `get_agent`
and `Ok(false)` from `validate_agent`; a send failure likewise. -/
theorem validate_agent_iff_get_witness :
    (AgentDiscovery.validate_agent "demo" (.ok ⟨404, none⟩)
       = .ok (exceptOk (AgentDiscovery.get_agent "demo" (.ok ⟨404, none⟩))))
  ∧ (AgentClient.get_agent "demo" (.error "connection refused")
       = .error (.Network "connection refused"))
  ∧ AgentClient.get_agent "demo" (.ok ⟨404, none⟩)
       = .error (.Agent ("Agent \x27" ++ "demo" ++ "\x27 not found: " ++ statusDisplay 404)) :=
  ⟨(validate_agent_iff_get "demo" (.ok ⟨404, none⟩)).1,
   (validate_agent_iff_get "demo" (.ok ⟨404, none⟩)).2.1 "connection refused",
   (validate_agent_iff_get "demo" (.ok ⟨404, none⟩)).2.2 ⟨404, none⟩ (by decide)⟩

/-- C8: `list_agents` fails on every non-success status with a directory
error carrying the status code and never returns a list then; on a success
status it returns the decoded agent sequence. -/
theorem list_agents_status_behavior (r : HttpResponse) :
    (statusIsSuccess r.status = false →
       AgentClient.list_agents (.ok r)
         = .error (.Agent ("Failed to list agents: " ++ statusDisplay r.status))
       ∧ ∀ agents : List Agent, AgentClient.list_agents (.ok r) ≠ .ok agents)
  ∧ (statusIsSuccess r.status = true →
       ∀ agents : List Agent, r.body.bind decodeAgentList = some agents →
         AgentClient.list_agents (.ok r) = .ok agents) := by
  constructor
  · intro hfail
    constructor
    · simp [AgentClient.list_agents, hfail]
    · intro agents
      simp [AgentClient.list_agents, hfail]
  · intro hok agents hdec
    simp [AgentClient.list_agents, hok, hdec]

/-- Witness for C8: HTTP 500 gives a directory failure carrying 500; HTTP
200 with a well-formed body yields the decoded agents. -/
theorem list_agents_status_behavior_witness :
    (AgentClient.list_agents (.ok ⟨500, none⟩)
       = .error (.Agent ("Failed to list agents: " ++ statusDisplay 500)))
  ∧ AgentClient.list_agents
      (.ok ⟨200, some (Json.arr [Json.obj [("name", Json.str "a"), ("description", Json.str "d")]])⟩)
      = .ok [⟨"a", "d", none⟩] :=
  ⟨((list_agents_status_behavior ⟨500, none⟩).1 (by decide)).1,
   (list_agents_status_behavior
       ⟨200, some (Json.arr [Json.obj [("name", Json.str "a"), ("description", Json.str "d")]])⟩).2
     (by decide) [⟨"a", "d", none⟩] rfl⟩

/-- C9: the `ChatRequest` built by `chat` for agent `a`, message `m` and
optional thread `t` has `run_id = a`, `resource_id = a`, a single user
message with one text part equal to `m`, and `thread_id = t`. -/
theorem chatRequest_fields (a m : String) (t : Option String) :
    (AgentClient.chatRequest a m t).run_id = a
  ∧ (AgentClient.chatRequest a m t).resource_id = a
  ∧ (AgentClient.chatRequest a m t).messages = [⟨"user", [⟨"text", m⟩]⟩]
  ∧ (AgentClient.chatRequest a m t).thread_id = t :=
  ⟨rfl, rfl, rfl, rfl⟩

/-- C10: in the loose chat path a present-but-non-string field acts as
absent — a non-string `type` means the frame is ignored; on a text frame a
non-string `content` falls back to `delta`; with both non-string nothing is
appended — and no such frame aborts the stream. -/
theorem chat_nonstring_fields_as_absent :
    (∀ (ev : String) (j v : Json) (rest : List SseSignal) (acc : String),
       j.get "type" = some v → v.asStr = none →
       chatLoop (SseSignal.message ev (some j) :: rest) acc = chatLoop rest acc)
  ∧ (∀ (ev : String) (j v : Json) (rest : List SseSignal) (acc d : String),
       ((j.get "type").bind Json.asStr = some "text" ∨
        (j.get "type").bind Json.asStr = some "text-delta") →
       j.get "content" = some v → v.asStr = none →
       (j.get "delta").bind Json.asStr = some d →
       chatLoop (SseSignal.message ev (some j) :: rest) acc
         = chatLoop rest (acc ++ d))
  ∧ (∀ (ev : String) (j cv dv : Json) (rest : List SseSignal) (acc : String),
       ((j.get "type").bind Json.asStr = some "text" ∨
        (j.get "type").bind Json.asStr = some "text-delta") →
       j.get "content" = some cv → cv.asStr = none →
       j.get "delta" = some dv → dv.asStr = none →
       chatLoop (SseSignal.message ev (some j) :: rest) acc = chatLoop rest acc) := by
  refine ⟨fun ev j v rest acc h1 h2 => ?_,
          fun ev j v rest acc d ht h1 h2 hd => ?_,
          fun ev j cv dv rest acc ht h1 h2 h3 h4 => ?_⟩
  · simp [chatLoop, chatStep, h1, h2]
  · rcases ht with ht | ht <;> simp [chatLoop, chatStep, ht, h1, h2, hd]
  · rcases ht with ht | ht <;> simp [chatLoop, chatStep, ht, h1, h2, h3, h4]

/-- Witness for C10: a numeric `type` is ignored; a numeric `content` falls
back to `delta`; numeric `content` and boolean `delta` append nothing. -/
theorem chat_nonstring_fields_as_absent_witness :
    (chatLoop [SseSignal.message "message" (some (Json.obj [("type", Json.num 1)]))] ""
       = chatLoop [] "")
  ∧ (chatLoop [SseSignal.message "message"
        (some (Json.obj [("type", Json.str "text"), ("content", Json.num 2), ("delta", Json.str "D")]))] ""
       = chatLoop [] ("" ++ "D"))
  ∧ chatLoop [SseSignal.message "message"
        (some (Json.obj [("type", Json.str "text"), ("content", Json.num 2), ("delta", Json.bool true)]))] ""
       = chatLoop [] "" :=
  ⟨chat_nonstring_fields_as_absent.1 "message" _ (Json.num 1) [] "" rfl rfl,
   chat_nonstring_fields_as_absent.2.1 "message" _ (Json.num 2) [] "" "D"
     (by decide) rfl rfl rfl,
   chat_nonstring_fields_as_absent.2.2 "message" _ (Json.num 2) (Json.bool true) [] ""
     (by decide) rfl rfl rfl rfl⟩
